import Mathlib

/-
Verification of the deka-gst-wgpu GPU memory subsystem.

The definitions below are a shallow embedding of the Rust sources:
 - deka-gst-wgpu/src/buffer_memory.rs   (WgpuMemory map/unmap, allocator free)
 - deka-gst-wgpu/src/texture_memory.rs  (texture allocator free)
 - deka-gst-wgpu-plugins-image-processing/src/wgpu_buffer_download/imp.rs
 - deka-gst-wgpu-plugins-image-processing/src/wgpu_buffer_upload/imp.rs
 - deka-gst-wgpu-plugins-image-processing/src/wgpu_sobel_mem/imp.rs

Side effects on the GPU device (copies, submits, polls, drops) are made
observable as explicit event lists; machine bitmasks become a structure of
booleans, one per wgpu::BufferUsages bit that the code uses.
-/

/-- The four wgpu::BufferUsages bits this codebase manipulates
(MAP_READ, MAP_WRITE, COPY_SRC, COPY_DST), one boolean per bit. -/
structure BufferUsages where
  map_read : Bool
  map_write : Bool
  copy_src : Bool
  copy_dst : Bool
deriving DecidableEq, Repr, Fintype

/-- bitflags `contains`: every bit of `x` is present in `m`. -/
def BufferUsages.contains (m x : BufferUsages) : Bool :=
  (!x.map_read || m.map_read) && (!x.map_write || m.map_write) &&
  (!x.copy_src || m.copy_src) && (!x.copy_dst || m.copy_dst)

/-- bitflags `intersects`: some bit of `x` is present in `m`. -/
def BufferUsages.intersects (m x : BufferUsages) : Bool :=
  (m.map_read && x.map_read) || (m.map_write && x.map_write) ||
  (m.copy_src && x.copy_src) || (m.copy_dst && x.copy_dst)

/-- bitflags union. -/
def BufferUsages.union (m x : BufferUsages) : BufferUsages :=
  ⟨m.map_read || x.map_read, m.map_write || x.map_write,
   m.copy_src || x.copy_src, m.copy_dst || x.copy_dst⟩

/-- bitflags `is_empty`: no bit set. -/
def BufferUsages.isEmpty (m : BufferUsages) : Bool :=
  !m.map_read && !m.map_write && !m.copy_src && !m.copy_dst

/-- wgpu::BufferUsages::MAP_READ -/
def MAP_READ : BufferUsages := ⟨true, false, false, false⟩

/-- wgpu::BufferUsages::MAP_WRITE -/
def MAP_WRITE : BufferUsages := ⟨false, true, false, false⟩

/-- wgpu::BufferUsages::COPY_SRC -/
def COPY_SRC : BufferUsages := ⟨false, false, true, false⟩

/-- wgpu::BufferUsages::COPY_DST -/
def COPY_DST : BufferUsages := ⟨false, false, false, true⟩

/-- The kind of mapped view stored in WgpuMemory.buffer_view:
wgpu::BufferView (read) or wgpu::BufferViewMut (write). -/
inductive BufferView where
  | readView
  | writeView
deriving DecidableEq, Repr, Fintype

/-- What a map call hands back to GStreamer: a non-null pointer into a
mapped view, or a null pointer on failure. -/
inductive MapOutcome where
  | mapped (v : BufferView)
  | nullPtr
deriving DecidableEq, Repr, Fintype

/-- WgpuMemory::map_write (buffer_memory.rs:229-249).  `ok` is the result the
asynchronous map callback delivers through the completion channel; the
poll loop that waits for it is modelled separately (see pollMapManualLoop). -/
def WgpuMemory.map_write (u : BufferUsages) (ok : Bool) : MapOutcome :=
  if !(u.contains MAP_WRITE) then
    MapOutcome.nullPtr
  else if ok then
    MapOutcome.mapped BufferView.writeView
  else
    MapOutcome.nullPtr

/-- WgpuMemory::map_read (buffer_memory.rs:207-227): a buffer whose usages lack
MAP_READ falls back to map_write. -/
def WgpuMemory.map_read (u : BufferUsages) (ok : Bool) : MapOutcome :=
  if !(u.contains MAP_READ) then
    WgpuMemory.map_write u ok
  else if ok then
    MapOutcome.mapped BufferView.readView
  else
    MapOutcome.nullPtr

/-- GstMapFlags restricted to the two bits gst_wgpu_mem_map inspects. -/
structure MapFlags where
  read : Bool
  write : Bool
deriving DecidableEq, Repr, Fintype

/-- The requested map mode, as dispatched by gst_wgpu_mem_map. -/
inductive MapMode where
  | read
  | write
deriving DecidableEq, Repr, Fintype

/-- Mode dispatch of gst_wgpu_mem_map (buffer_memory.rs:306-309). -/
def mapForMode (mode : MapMode) (u : BufferUsages) (ok : Bool) : MapOutcome :=
  match mode with
  | MapMode.read => WgpuMemory.map_read u ok
  | MapMode.write => WgpuMemory.map_write u ok

/-- The map-success gate exactly as the specification words it: map succeeds
iff the mode's required bit is in the mask, else fails with a null view,
except that a read map against a mask with write-map but without read-map
returns the write-mapped view.  This is the spec side of the refinement;
`mapForMode` is the code side. -/
def specMapGate (mode : MapMode) (u : BufferUsages) : MapOutcome :=
  match mode with
  | MapMode.write =>
    if u.contains MAP_WRITE then MapOutcome.mapped BufferView.writeView
    else MapOutcome.nullPtr
  | MapMode.read =>
    if u.contains MAP_READ then MapOutcome.mapped BufferView.readView
    else if u.contains MAP_WRITE then MapOutcome.mapped BufferView.writeView
    else MapOutcome.nullPtr

/-- On success the callback in map_read/map_write stores the fresh view into
buffer_view; on failure the stored view is untouched. -/
def applyMap (st : Option BufferView) (r : MapOutcome) :
    Option BufferView × MapOutcome :=
  match r with
  | MapOutcome.mapped v => (some v, MapOutcome.mapped v)
  | MapOutcome.nullPtr => (st, MapOutcome.nullPtr)

/-- gst_wgpu_mem_map (buffer_memory.rs:280-310): pick the mode from the flags
(write wins, no flag is an error), refuse when a view is already live, then
run map_read/map_write.  Returns the new buffer_view state and the pointer. -/
def gst_wgpu_mem_map (st : Option BufferView) (u : BufferUsages)
    (flags : MapFlags) (ok : Bool) : Option BufferView × MapOutcome :=
  if !flags.write && !flags.read then
    (st, MapOutcome.nullPtr)
  else if st.isSome then
    (st, MapOutcome.nullPtr)
  else if flags.write then
    applyMap st (WgpuMemory.map_write u ok)
  else
    applyMap st (WgpuMemory.map_read u ok)

/-- WgpuMemory::unmap (buffer_memory.rs:252-257): drops the stored view
(sets buffer_view to None), issues the device unmap and a non-blocking poll. -/
def WgpuMemory.unmap (_st : Option BufferView) : Option BufferView :=
  none

/-- What std::sync::mpsc::Receiver::try_recv can yield on the single-slot map
completion channel. -/
inductive TryRecv where
  | empty
  | disconnected
  | success (ok : Bool)
deriving DecidableEq, Repr

/-- The result of poll_map as seen by the caller: the pointer produced by
on_map, or null.  poll_map has no other outcome. -/
inductive PollMapResult where
  | mappedPtr
  | nullPtr
deriving DecidableEq, Repr

/-- The Manual-mode loop of WgpuMemory::poll_map (buffer_memory.rs:158-170):
try_recv; while it yields Empty, poll the device (each poll waits up to
250 ms) and try_recv again.  `resp i` is what try_recv yields at iteration
`i`; `fuel` is only the observation depth of this embedding — the Rust loop
itself has no bound, so running out of fuel (result `none`) means the loop
is still spinning after `fuel` iterations. -/
def pollMapManualLoop (resp : Nat → TryRecv) (i : Nat) : Nat → Option TryRecv
  | 0 => none
  | fuel + 1 =>
    match resp i with
    | TryRecv.empty => pollMapManualLoop resp (i + 1) fuel
    | r => some r

/-- WgpuMemory::poll_map in Manual poll mode (buffer_memory.rs:151-205): run
the loop, then return the on_map pointer when the callback reported Ok, and a
null pointer when it reported an error or the channel disconnected. -/
def poll_map_manual (resp : Nat → TryRecv) (fuel : Nat) : Option PollMapResult :=
  (pollMapManualLoop resp 0 fuel).map fun r =>
    match r with
    | TryRecv.success true => PollMapResult.mappedPtr
    | _ => PollMapResult.nullPtr

/-- GStreamer flow errors returned by the transform paths. -/
inductive FlowError where
  | notNegotiated
  | flowError
deriving DecidableEq, Repr

/-- Device-side operations the download transform performs, in order. -/
inductive GpuOp where
  | copyBufferToBuffer (size : Nat)
  | submit
  | waitSubmission
deriving DecidableEq, Repr

/-- WgpuBufferDownload::transform (wgpu_buffer_download/imp.rs:313-365).
Arguments mirror what the code inspects: whether each memory downcasts to
WgpuBufferMemory, the output being writable, the usage masks, the two sizes
and whether the post-submit device poll succeeds.  Returns the flow result
together with the ordered list of device operations performed. -/
def WgpuBufferDownload.transform (in_is_wgpu : Bool) (in_usage : BufferUsages)
    (out_writable : Bool) (out_is_wgpu : Bool) (out_usage : BufferUsages)
    (in_size out_size : Nat) (poll_ok : Bool) :
    Except FlowError Unit × List GpuOp :=
  if !in_is_wgpu then
    (Except.error FlowError.notNegotiated, [])
  else if !(in_usage.contains COPY_SRC) then
    (Except.error FlowError.notNegotiated, [])
  else if !out_writable then
    (Except.error FlowError.flowError, [])
  else if !out_is_wgpu then
    (Except.error FlowError.notNegotiated, [])
  else if !(out_usage.contains COPY_DST) then
    (Except.error FlowError.notNegotiated, [])
  else
    let copy_size := min in_size out_size
    let ops := [GpuOp.copyBufferToBuffer copy_size, GpuOp.submit,
                GpuOp.waitSubmission]
    if poll_ok then (Except.ok (), ops)
    else (Except.error FlowError.flowError, ops)

/-- WgpuBufferDownload::before_transform (wgpu_buffer_download/imp.rs:282-311):
non-WGPU memory forces pass-through off; WGPU memory toggles pass-through on
iff its usages intersect MAP_READ | MAP_WRITE.  Returns the resulting
pass-through state. -/
def WgpuBufferDownload.before_transform (mem_is_wgpu : Bool)
    (u : BufferUsages) (old_passthrough : Bool) : Bool :=
  if !mem_is_wgpu then
    false
  else if u.intersects (MAP_READ.union MAP_WRITE) then
    if !old_passthrough then true else old_passthrough
  else
    if old_passthrough then false else old_passthrough

/-- The release steps WgpuMemoryAllocator::free performs, in program order. -/
inductive FreeStep where
  | dropContext
  | dropDeviceResource
  | unrefAllocator
  | deallocRecord
deriving DecidableEq, Repr, BEq

/-- WgpuMemoryAllocator::free for buffers (buffer_memory.rs:443-464): drop the
ManuallyDrop context, then the ManuallyDrop wgpu buffer, then unref the
allocator, then dealloc the raw record. -/
def free_buffer_steps : List FreeStep :=
  [FreeStep.dropContext, FreeStep.dropDeviceResource,
   FreeStep.unrefAllocator, FreeStep.deallocRecord]

/-- WgpuMemoryAllocator::free for textures (texture_memory.rs:284-306): same
order — context, then texture, then allocator unref, then dealloc. -/
def free_texture_steps : List FreeStep :=
  [FreeStep.dropContext, FreeStep.dropDeviceResource,
   FreeStep.unrefAllocator, FreeStep.deallocRecord]

/-- Step `a` happens strictly before step `b` in the trace `l`. -/
def releasedBefore (l : List FreeStep) (a b : FreeStep) : Prop :=
  l.findIdx (fun x => x == a) < l.findIdx (fun x => x == b)

instance (l : List FreeStep) (a b : FreeStep) : Decidable (releasedBefore l a b) :=
  inferInstanceAs (Decidable (l.findIdx (fun x => x == a) < l.findIdx (fun x => x == b)))

/-- One allocator proposed in a GstAllocation query, as the upload and
download decide_allocation loops inspect it: whether it downcasts to
WgpuBufferMemoryAllocator, its explicit usage mask when it carries one, and
whether the proposed AllocationParams flags contain READONLY. -/
structure AllocProposal where
  is_wgpu : Bool
  explicit_usages : Option BufferUsages
  params_readonly : Bool
deriving DecidableEq, Repr

/-- The outcome of decide_allocation: a negotiation error, or the final list
of allocators left in (or added to) the query. -/
inductive DecideResult where
  | negotiationError
  | ok (proposals : List AllocProposal)
deriving DecidableEq, Repr

/-- The keep condition actually applied by WgpuBufferUpload::decide_allocation
(wgpu_buffer_upload/imp.rs:363-392): non-WGPU proposals are pushed to
to_remove; WGPU proposals with explicit usages are kept no matter what
(the branch for insufficient usages only logs); WGPU proposals without
explicit usages are removed when their params are READONLY. -/
def upload_keeps (p : AllocProposal) : Bool :=
  if !p.is_wgpu then
    false
  else
    match p.explicit_usages with
    | some _ => true
    | none => !p.params_readonly

/-- WgpuBufferUpload::decide_allocation (wgpu_buffer_upload/imp.rs:347-404):
fail before negotiation, filter the proposals with `upload_keeps`, and when
none survive add the stage's own allocator carrying the negotiated source
usages. -/
def WgpuBufferUpload.decide_allocation (src_usages : BufferUsages)
    (proposals : List AllocProposal) : DecideResult :=
  if src_usages.isEmpty then
    DecideResult.negotiationError
  else
    let remaining := proposals.filter upload_keeps
    if remaining.isEmpty then
      DecideResult.ok [⟨true, some src_usages, false⟩]
    else
      DecideResult.ok remaining

/-- Rust u32::div_ceil as the sobel stages call it. -/
def rustDivCeil (a b : Nat) : Nat :=
  a / b + (if a % b > 0 then 1 else 0)

/-- Mathematical ceiling division, the spec side of the dispatch grid. -/
def ceilDiv (a b : Nat) : Nat :=
  (a + b - 1) / b

/-- Device-side operations of the sobel transform, in order. -/
inductive SobelOp where
  | copyBufferToTexture (w h : Nat)
  | dispatchWorkgroups (x y z : Nat)
  | copyTextureToBuffer (w h : Nat)
  | submit
deriving DecidableEq, Repr

/-- The command stream recorded by WgpuSobelMem::transform_with_gpu
(wgpu_sobel_mem/imp.rs:99-151) and identically by
WgpuSobelBuf::transform_with_gpu (wgpu_sobel_buf/imp.rs:350-402): copy the
input buffer into the input texture, dispatch the compute pass over
width.div_ceil(8) by height.div_ceil(8) by 1 work-groups, copy the output
texture out, submit. -/
def transform_with_gpu_ops (in_w in_h out_w out_h : Nat) : List SobelOp :=
  [SobelOp.copyBufferToTexture in_w in_h,
   SobelOp.dispatchWorkgroups (rustDivCeil in_w 8) (rustDivCeil in_h 8) 1,
   SobelOp.copyTextureToBuffer out_w out_h,
   SobelOp.submit]

/-- Selector for the dispatch commands of a sobel command stream. -/
def isDispatch (op : SobelOp) : Bool :=
  match op with
  | SobelOp.dispatchWorkgroups _ _ _ => true
  | _ => false

/-- set_wgpu_context, shared verbatim by WgpuBufferUpload (imp.rs:33-45),
WgpuBufferDownload (imp.rs:34-46) and the sobel stages: when the stored
context is already Some, return without writing; otherwise store the offered
context.  Contexts are identified by an abstract id. -/
def set_wgpu_context (stored : Option Nat) (ctx : Nat) : Option Nat :=
  if stored.isSome then stored else some ctx

/- Helper lemmas (shared, not tied to any single claim). -/

/-- When try_recv yields Empty forever, the manual poll loop never exits. -/
theorem pollMapManualLoop_all_empty (i fuel : Nat) :
    pollMapManualLoop (fun _ => TryRecv.empty) i fuel = none := by
  induction fuel generalizing i with
  | zero => rfl
  | succ m ih => simpa [pollMapManualLoop] using ih (i + 1)

/-- When the completion arrives at iteration `n` (Empty strictly before `n`,
a successful message from `n` on), the loop exits with that message as soon
as it reaches iteration `n`. -/
theorem pollMapManualLoop_arrives (n : Nat) :
    ∀ fuel i, n - i < fuel →
      pollMapManualLoop (fun j => if j < n then TryRecv.empty else TryRecv.success true) i fuel
        = some (TryRecv.success true) := by
  intro fuel
  induction fuel with
  | zero => intro i h; omega
  | succ m ih =>
    intro i h
    by_cases hi : i < n
    · have hstep : pollMapManualLoop
          (fun j => if j < n then TryRecv.empty else TryRecv.success true) i (m + 1)
          = pollMapManualLoop
            (fun j => if j < n then TryRecv.empty else TryRecv.success true) (i + 1) m := by
        simp [pollMapManualLoop, hi]
      rw [hstep]
      exact ih (i + 1) (by omega)
    · simp [pollMapManualLoop, hi]

/- Claim theorems. -/

/-- Claim C1: for every usage mask and map mode, the map gate of
WgpuMemory::map_read and WgpuMemory::map_write behaves exactly as the
specification states — success iff the mode's required bit is present in the
mask, a null view otherwise, with the single exception that a read map on a
mask lacking MAP_READ but holding MAP_WRITE falls back to the write-mapped
view.  (`true` plays the successful asynchronous completion.) -/
theorem map_capability_gate_matches_claim :
    ∀ (mode : MapMode) (u : BufferUsages),
      mapForMode mode u true = specMapGate mode u := by
  decide

/-- Claim C2: a map call while a view is live returns a null pointer without
touching the stored view, regardless of flags, usages or the asynchronous
result; and unmap after unmap is a no-op (the stored view is simply cleared
again), not undefined behavior. -/
theorem mem_map_single_live_view :
    ∀ (st : Option BufferView) (u : BufferUsages) (flags : MapFlags)
      (ok : Bool) (v : BufferView),
      (st = some v → gst_wgpu_mem_map st u flags ok = (st, MapOutcome.nullPtr))
      ∧ WgpuMemory.unmap (WgpuMemory.unmap st) = WgpuMemory.unmap st := by
  decide

/-- Witness for C2: mapping for write while a read view is live fails with a
null pointer and leaves the view untouched. -/
theorem mem_map_single_live_view_witness :
    gst_wgpu_mem_map (some BufferView.readView) MAP_WRITE ⟨false, true⟩ true
      = (some BufferView.readView, MapOutcome.nullPtr) :=
  (mem_map_single_live_view (some BufferView.readView) MAP_WRITE
    ⟨false, true⟩ true BufferView.readView).1 rfl

/-- Claim C3: for input and output GPU buffers holding COPY_SRC and COPY_DST
respectively, the download transform records exactly one device-side
buffer-to-buffer copy of min(in_size, out_size) bytes, submits it, and waits
on that submission before returning success. -/
theorem buffer_download_copies_min_and_waits
    (in_u out_u : BufferUsages) (s_in s_out : Nat)
    (h_src : in_u.contains COPY_SRC = true)
    (h_dst : out_u.contains COPY_DST = true) :
    WgpuBufferDownload.transform true in_u true true out_u s_in s_out true
      = (Except.ok (), [GpuOp.copyBufferToBuffer (min s_in s_out),
                        GpuOp.submit, GpuOp.waitSubmission]) := by
  simp [WgpuBufferDownload.transform, h_src, h_dst]

/-- Witness for C3: a 100-byte input and a 50-byte output copy exactly 50
bytes before the submit and the wait. -/
theorem buffer_download_copies_min_and_waits_witness :
    WgpuBufferDownload.transform true COPY_SRC true true COPY_DST 100 50 true
      = (Except.ok (), [GpuOp.copyBufferToBuffer 50, GpuOp.submit,
                        GpuOp.waitSubmission]) := by
  have h := buffer_download_copies_min_and_waits COPY_SRC COPY_DST 100 50
    (by decide) (by decide)
  simpa using h

/-- Counterexample to claim C4 as stated: in both free paths the Device
Context back-reference is dropped first, so it is not released after the
device-side resource. -/
theorem free_context_not_released_last :
    ¬ releasedBefore free_buffer_steps FreeStep.dropDeviceResource FreeStep.dropContext
    ∧ ¬ releasedBefore free_texture_steps FreeStep.dropDeviceResource FreeStep.dropContext := by
  decide

/-- Claim C4 (amended): in both the buffer and the texture allocator's free,
the device-side resource is dropped before the host-side record is
deallocated, but the Device Context back-reference is dropped first of all,
before the device-side resource, not last. -/
theorem free_releases_resource_before_record_context_first :
    releasedBefore free_buffer_steps FreeStep.dropDeviceResource FreeStep.deallocRecord
    ∧ releasedBefore free_buffer_steps FreeStep.dropContext FreeStep.dropDeviceResource
    ∧ releasedBefore free_texture_steps FreeStep.dropDeviceResource FreeStep.deallocRecord
    ∧ releasedBefore free_texture_steps FreeStep.dropContext FreeStep.dropDeviceResource := by
  decide

/-- Counterexample to claim C5 as stated: when the map completion never
arrives, the Manual-mode poll loop never exits at any observation depth —
poll_map blocks forever instead of returning a MapTimeout error. -/
theorem poll_map_manual_never_returns_without_completion :
    ¬ ∃ fuel r, poll_map_manual (fun _ => TryRecv.empty) fuel = some r := by
  rintro ⟨fuel, r, h⟩
  rw [poll_map_manual, pollMapManualLoop_all_empty] at h
  exact Option.noConfusion h

/-- Claim C5 (amended): the Manual-mode poll loop of map is not bounded by
any caller-supplied timeout: if the completion never arrives the loop spins
forever (first conjunct), and a completion arriving at an arbitrarily late
iteration n still yields the mapped pointer — never a timeout error
(second conjunct). -/
theorem poll_map_manual_unbounded_no_timeout :
    (∀ fuel, poll_map_manual (fun _ => TryRecv.empty) fuel = none)
    ∧ (∀ n fuel, n < fuel →
        poll_map_manual (fun j => if j < n then TryRecv.empty else TryRecv.success true) fuel
          = some PollMapResult.mappedPtr) := by
  constructor
  · intro fuel
    rw [poll_map_manual, pollMapManualLoop_all_empty]
    rfl
  · intro n fuel h
    rw [poll_map_manual, pollMapManualLoop_arrives n fuel 0 (by omega)]
    rfl

/-- Claim C6, code evaluated at the failing input: with negotiated source
usages MAP_WRITE, a proposed WGPU allocator whose explicit usages are only
COPY_SRC — which does not contain the required MAP_WRITE — is nevertheless
kept in the query, and the stage does not add its own allocator. -/
theorem decide_allocation_keeps_wrong_usage_allocator :
    WgpuBufferUpload.decide_allocation MAP_WRITE
        [⟨true, some COPY_SRC, false⟩]
      = DecideResult.ok [⟨true, some COPY_SRC, false⟩]
    ∧ COPY_SRC.contains MAP_WRITE = false := by
  decide

/-- Claim C7: on the download stage, for every incoming GPU buffer memory the
resulting pass-through state is on iff the buffer's usage mask includes a
bit under which it is host-read-mappable — MAP_READ, or MAP_WRITE via the
documented read-map fallback. -/
theorem before_transform_passthrough_iff_mappable :
    ∀ (u : BufferUsages) (old : Bool),
      WgpuBufferDownload.before_transform true u old = true
        ↔ (u.map_read = true ∨ u.map_write = true) := by
  decide

/-- Claim C8: on the download stage, incoming memory of an unrecognized
(non-GPU) kind forces pass-through off in before_transform, and the transform
for such a buffer fails with NotNegotiated having performed no device
operation. -/
theorem foreign_memory_no_passthrough_not_negotiated :
    (∀ (u : BufferUsages) (old : Bool),
        WgpuBufferDownload.before_transform false u old = false)
    ∧ (∀ (in_u out_u : BufferUsages) (w ow : Bool) (s_in s_out : Nat) (ok : Bool),
        WgpuBufferDownload.transform false in_u w ow out_u s_in s_out ok
          = (Except.error FlowError.notNegotiated, [])) := by
  constructor
  · intro u old
    rfl
  · intro in_u out_u w ow s_in s_out ok
    rfl

/-- Claim C9: for every negotiated frame of width w and height h the sobel
compute transform dispatches exactly one work-group grid, of size
ceil(w/8) by ceil(h/8) by 1; for a 64 by 64 frame that is 8 by 8 by 1. -/
theorem sobel_dispatch_grid_ceil :
    (∀ w h : Nat,
      (transform_with_gpu_ops w h w h).filter isDispatch
        = [SobelOp.dispatchWorkgroups (ceilDiv w 8) (ceilDiv h 8) 1])
    ∧ (transform_with_gpu_ops 64 64 64 64).filter isDispatch
        = [SobelOp.dispatchWorkgroups 8 8 1] := by
  constructor
  · intro w h
    have hw : rustDivCeil w 8 = ceilDiv w 8 := by
      simp only [rustDivCeil, ceilDiv]
      split <;> omega
    have hh : rustDivCeil h 8 = ceilDiv h 8 := by
      simp only [rustDivCeil, ceilDiv]
      split <;> omega
    simp [transform_with_gpu_ops, isDispatch, hw, hh]
  · decide

/-- Claim C10: once the shared Wgpu context field is set, every later
set_wgpu_context call leaves it unchanged — the first stored context wins —
while a call on an empty field stores the offered context. -/
theorem set_wgpu_context_first_wins :
    ∀ (st : Option Nat) (c d : Nat),
      set_wgpu_context (some c) d = some c
      ∧ set_wgpu_context (set_wgpu_context st c) d = set_wgpu_context st c := by
  intro st c d
  refine ⟨rfl, ?_⟩
  cases st <;> simp [set_wgpu_context]
